import Mathlib

/-!
Verification development for the storage/cache core of a clinic
appointment-booking app (React Native + AsyncStorage).

The embedding follows the TypeScript source:
  * services/storage.ts   : storageService (setItem / getItem / removeItem,
                            in-memory cache with optional expiry, domain
                            helpers, backup and restore)
  * services/notifications.ts : notificationService.getNotifications
  * statistics service    : getGeneralStatistics aggregation

JavaScript values that flow through JSON.stringify / JSON.parse are modelled
by the inductive type Jv; JavaScript truthiness, the logical-or defaulting
idiom (x || fallback) and property access returning undefined are modelled
explicitly, because several behaviours of the source hinge on them.
-/

namespace MedicalApp

/-- JSON values, the input/output domain of JSON.stringify and JSON.parse.
Numbers are modelled as rationals (IEEE doubles embed into them, NaN and
infinities are not valid JSON). -/
inductive Jv : Type where
  | null : Jv
  | bool (b : Bool) : Jv
  | num (q : ℚ) : Jv
  | str (s : String) : Jv
  | arr (elems : List Jv) : Jv
  | obj (fields : List (String × Jv)) : Jv
deriving Repr

/-- JavaScript truthiness of a JSON value: null, false, 0 and the empty
string are falsy; every array and every object (even empty) is truthy. -/
def Jv.truthy : Jv → Bool
  | .null => false
  | .bool b => b
  | .num q => q != 0
  | .str s => s != ""
  | .arr _ => true
  | .obj _ => true

/-- Association-list lookup (first match), used for JS object fields, the
in-memory cache Map and the backend key-value store. -/
def alGet {α : Type} : List (String × α) → String → Option α
  | [], _ => none
  | (k, v) :: rest, key => if k = key then some v else alGet rest key

/-- Association-list update: the key is bound to the new value, any previous
binding is dropped.  Models Map.set and object-property assignment (only the
lookup/update semantics matter, not the physical order of entries). -/
def alSet {α : Type} (l : List (String × α)) (key : String) (v : α) :
    List (String × α) :=
  (key, v) :: l.filter (fun p => p.1 != key)

/-- Association-list deletion, modelling Map.delete and backend removal. -/
def alDel {α : Type} (l : List (String × α)) (key : String) :
    List (String × α) :=
  l.filter (fun p => p.1 != key)

/-- JavaScript property access o.k: a field of an object, undefined (none)
for a missing field or a non-object receiver. -/
def jsGet : Jv → String → Option Jv
  | .obj fields, key => alGet fields key
  | _, _ => none

/-- The JavaScript defaulting idiom x || fallback, where x may be undefined
(none): yields x when x is present and truthy, the fallback otherwise. -/
def jsOr (v : Option Jv) (fallback : Jv) : Jv :=
  match v with
  | some x => if x.truthy then x else fallback
  | none => fallback

/-- One in-memory cache entry (interface CacheItem in storage.ts): the
stored value, the write timestamp, and an optional absolute expiry instant
in milliseconds since epoch. -/
structure CacheItem where
  data : Jv
  timestamp : Nat
  expiry : Option Nat
deriving Repr

/-- What the persistent AsyncStorage backend holds at one key, as observable
through AsyncStorage.getItem:
  * stored v   : a well-formed JSON string (JSON.stringify of v),
  * malformed  : a non-empty string that JSON.parse rejects,
  * readError  : reading this key throws a backend error.
An absent key is simply not bound in the association list. -/
inductive BackendCell : Type where
  | stored (v : Jv) : BackendCell
  | malformed : BackendCell
  | readError : BackendCell
deriving Repr

/-- The whole storage state: the persistent backend, the module-level
in-memory cache Map of storage.ts, and the set of keys on which
AsyncStorage.setItem throws (modelling backend write failures). -/
structure StorageState where
  backend : List (String × BackendCell)
  cache : List (String × CacheItem)
  writeFails : List String
deriving Repr

/-- storageService.setItem: serializes the value, writes it to the backend,
then updates the cache entry with the current timestamp and the optional
expiry Date.now() + expiryMinutes * 60 * 1000.  The conditional
expiryMinutes ? ... : undefined makes a TTL of 0 minutes behave like no TTL
(0 is falsy).  A backend write failure throws, and the throw happens before
cache.set, so the cache is left untouched; the error is propagated. -/
def setItem (st : StorageState) (key : String) (value : Jv)
    (expiryMinutes : Option Nat) (now : Nat) : Except Unit Unit × StorageState :=
  if key ∈ st.writeFails then
    (.error (), st)
  else
    let expiry : Option Nat :=
      match expiryMinutes with
      | some m => if m != 0 then some (now + m * 60 * 1000) else none
      | none => none
    (.ok (), { st with
      backend := alSet st.backend key (.stored value),
      cache := alSet st.cache key ⟨value, now, expiry⟩ })

/-- Steps 2 to 4 of storageService.getItem: read the backend string, parse
it, populate the cache (with no expiry) and return the parsed value; on an
absent key return defaultValue || null; on a read error or a parse error the
surrounding catch returns defaultValue || null as well (fail soft). -/
def readBackend (st : StorageState) (key : String) (defaultValue : Option Jv)
    (now : Nat) : Jv × StorageState :=
  match alGet st.backend key with
  | some (.stored v) =>
      (v, { st with cache := alSet st.cache key ⟨v, now, none⟩ })
  | some .malformed => (jsOr defaultValue Jv.null, st)
  | some .readError => (jsOr defaultValue Jv.null, st)
  | none => (jsOr defaultValue Jv.null, st)

/-- storageService.getItem: first the in-memory cache - a hit is returned
when the entry has no expiry (the check !cached.expiry also treats a 0
expiry as no expiry) or the expiry is strictly in the future; an expired
entry is deleted from the cache and the backend is consulted.  Returns the
value together with the updated state. -/
def getItem (st : StorageState) (key : String) (defaultValue : Option Jv)
    (now : Nat) : Jv × StorageState :=
  match alGet st.cache key with
  | some c =>
      match c.expiry with
      | none => (c.data, st)
      | some e =>
          if e = 0 ∨ now < e then (c.data, st)
          else readBackend { st with cache := alDel st.cache key } key
            defaultValue now
  | none => readBackend st key defaultValue now

/-- storageService.removeItem: removes the key from the backend and from the
in-memory cache. -/
def removeItem (st : StorageState) (key : String) : StorageState :=
  { st with backend := alDel st.backend key, cache := alDel st.cache key }

namespace STORAGE_KEYS

def APPOINTMENTS : String := "@MedicalApp:appointments"

def NOTIFICATIONS : String := "@MedicalApp:notifications"

def REGISTERED_USERS : String := "@MedicalApp:registeredUsers"

def APP_SETTINGS : String := "@MedicalApp:settings"

end STORAGE_KEYS

/-- Value part of the backend branch of getItem: the parsed stored value
when the key holds well-formed JSON, otherwise defaultValue || null (an
absent key, a malformed string and a backend read error all end in the
fail-soft default path). -/
def backendVal (b : Option BackendCell) (d : Option Jv) : Jv :=
  match b with
  | some (.stored v) => v
  | some .malformed => jsOr d Jv.null
  | some .readError => jsOr d Jv.null
  | none => jsOr d Jv.null

/-- Value returned by getItem, as a function of only the cache entry and the
backend cell of the requested key (and the clock). -/
def getItemVal (c : Option CacheItem) (b : Option BackendCell) (d : Option Jv)
    (now : Nat) : Jv :=
  match c with
  | some ci =>
      match ci.expiry with
      | none => ci.data
      | some e => if e = 0 ∨ now < e then ci.data else backendVal b d
  | none => backendVal b d

/-- storageService.updateAppointment merges the patch into the object whose
id field strictly equals the given id (apt.id === appointmentId). -/
def aptIdMatches (apt : Jv) (appointmentId : String) : Bool :=
  match jsGet apt "id" with
  | some (.str s) => s == appointmentId
  | _ => false

/-- JavaScript object spread merge of two field lists,
as in the object literal with original fields spread first and update
fields spread second: keys of the original keep their position but take the
updated value when the updates also bind them; fresh update keys follow. -/
def objMerge (a b : List (String × Jv)) : List (String × Jv) :=
  a.map (fun p => match alGet b p.1 with | some v => (p.1, v) | none => p)
    ++ b.filter (fun q => (alGet a q.1).isNone)

/-- storageService.updateAppointment: maps the appointments collection,
replacing the element whose id matches with the spread merge of the element
and the updates; every other element passes through unchanged (the non
object arm of the inner match is unreachable because a non object never
matches on id). -/
def updateAppointment (appointmentId : String) (updates : List (String × Jv))
    (appointments : List Jv) : List Jv :=
  appointments.map fun apt =>
    if aptIdMatches apt appointmentId then
      match apt with
      | .obj fields => .obj (objMerge fields updates)
      | other => other
    else apt

/-- storageService.createBackup: reads the four covered keys through getItem
(with fresh empty-collection defaults), wraps them with a generation
timestamp and serializes the snapshot.  The JSON document is modelled in
parsed form (JSON.stringify followed by JSON.parse is the identity on JSON
values).  Each read may populate the cache, so the state is threaded. -/
def createBackup (st : StorageState) (now : Nat) (timestampIso : String) :
    Jv × StorageState :=
  let r1 := getItem st STORAGE_KEYS.APPOINTMENTS (some (.arr [])) now
  let r2 := getItem r1.2 STORAGE_KEYS.NOTIFICATIONS (some (.arr [])) now
  let r3 := getItem r2.2 STORAGE_KEYS.REGISTERED_USERS (some (.arr [])) now
  let r4 := getItem r3.2 STORAGE_KEYS.APP_SETTINGS (some (.obj [])) now
  (.obj [("timestamp", .str timestampIso),
         ("data", .obj [("appointments", r1.1), ("notifications", r2.1),
                        ("registeredUsers", r3.1), ("settings", r4.1)])],
   r4.2)

/-- storageService.restoreFromBackup: parses the backup string (modelled in
parsed form), and when a truthy data section is present overwrites the four
covered keys, defaulting each missing or falsy sub-field with the
logical-or idiom backup.data.key || emptyCollection.  Each setItem may
throw; the error is propagated and the remaining writes are skipped. -/
def restoreFromBackup (st : StorageState) (backup : Jv) (now : Nat) :
    Except Unit Unit × StorageState :=
  match jsGet backup "data" with
  | none => (.ok (), st)
  | some d =>
      if d.truthy then
        match setItem st STORAGE_KEYS.APPOINTMENTS
            (jsOr (jsGet d "appointments") (.arr [])) none now with
        | (.error e, st1) => (.error e, st1)
        | (.ok _, st1) =>
          match setItem st1 STORAGE_KEYS.NOTIFICATIONS
              (jsOr (jsGet d "notifications") (.arr [])) none now with
          | (.error e, st2) => (.error e, st2)
          | (.ok _, st2) =>
            match setItem st2 STORAGE_KEYS.REGISTERED_USERS
                (jsOr (jsGet d "registeredUsers") (.arr [])) none now with
            | (.error e, st3) => (.error e, st3)
            | (.ok _, st3) =>
              setItem st3 STORAGE_KEYS.APP_SETTINGS
                (jsOr (jsGet d "settings") (.obj [])) none now
      else (.ok (), st)

/-- One persisted notification (interface Notification in
services/notifications.ts).  The createdAt ISO-8601 string is compared in
the source only through new Date(createdAt).getTime(); it is therefore
modelled directly as that numeric timestamp in milliseconds. -/
structure Notification where
  id : String
  userId : String
  title : String
  message : String
  type : String
  read : Bool
  createdAt : Nat
  appointmentId : Option String
deriving Repr

/-- Ordering used by the notification sort: the source comparator
(a, b) => timeOf b - timeOf a puts a before b exactly when the timestamp of
b is at most the timestamp of a (descending order, ties allowed). -/
def notifLe (a b : Notification) : Bool :=
  decide (b.createdAt ≤ a.createdAt)

/-- notificationService.getNotifications: filters the single stored
collection by userId, then sorts descending by createdAt with the
comparator (a, b) => timeOf b - timeOf a.  Array.prototype.sort is stable
(ECMAScript 2019), so it is modelled by the stable List.mergeSort. -/
def getNotifications (allNotifications : List Notification) (userId : String) :
    List Notification :=
  (allNotifications.filter (fun n => n.userId == userId)).mergeSort notifLe

/-- One appointment as consumed by the statistics service (interface
Appointment in the statistics source). -/
structure Appointment where
  id : String
  patientId : String
  patientName : String
  doctorId : String
  doctorName : String
  date : String
  time : String
  specialty : String
  status : String
deriving Repr

/-- Per-status percentages of the statistics snapshot.  JavaScript numbers
are modelled as rationals; the source divisions count / total * 100 are
exact in both models for the cases the claims quantify over. -/
structure StatusPercentages where
  confirmed : ℚ
  pending : ℚ
  cancelled : ℚ
deriving Repr

/-- The aggregated statistics snapshot (interface Statistics). -/
structure Statistics where
  totalAppointments : Nat
  confirmedAppointments : Nat
  pendingAppointments : Nat
  cancelledAppointments : Nat
  totalPatients : Nat
  totalDoctors : Nat
  specialties : List (String × Nat)
  appointmentsByMonth : List (String × Nat)
  statusPercentages : StatusPercentages
deriving Repr

/-- Histogram increment as written in the source: if (histogram[key]) then
histogram[key]++ else histogram[key] = 1.  A zero count is falsy and would
be reset to 1, mirroring the JavaScript truthiness test. -/
def bumpCount (m : List (String × Nat)) (key : String) : List (String × Nat) :=
  match alGet m key with
  | some n => if n != 0 then alSet m key (n + 1) else alSet m key 1
  | none => alSet m key 1

/-- String interpolation of a possibly undefined value, as in a template
literal: a missing value prints as the text undefined. -/
def jsShow (o : Option String) : String :=
  match o with
  | some s => s
  | none => "undefined"

/-- JavaScript String.prototype.split with a one-character separator, on
the character list: the empty string splits to one empty piece, and every
separator character opens a new piece. -/
def splitSlash : List Char → List (List Char)
  | [] => [[]]
  | c :: rest =>
      if c = '/' then [] :: splitSlash rest
      else
        match splitSlash rest with
        | h :: t => (c :: h) :: t
        | [] => [[c]]

/-- The source expression date.split(slash) as a list of strings. -/
def jsSplitSlash (s : String) : List String :=
  (splitSlash s.data).map (fun cs => String.mk cs)

/-- Month key of one appointment as computed by the source: split the date
on the slash character, destructure into day, month and year (missing
positions become undefined, destructuring never throws for a string), and
build the template string month/year. -/
def monthKeyOf (date : String) : String :=
  let parts := jsSplitSlash date
  jsShow parts[1]? ++ "/" ++ jsShow parts[2]?

/-- statisticsService.getGeneralStatistics as a pure function of the parsed
appointments collection: status counts, unique patient and doctor counts,
specialty and month histograms, and guarded status percentages.  The
try/catch around the month grouping can only fire when the date field is
not a string; for string dates the split/destructure path never throws. -/
def getGeneralStatistics (appointments : List Appointment) : Statistics :=
  let totalAppointments := appointments.length
  let confirmedAppointments :=
    (appointments.filter (fun a => a.status == "confirmed")).length
  let pendingAppointments :=
    (appointments.filter (fun a => a.status == "pending")).length
  let cancelledAppointments :=
    (appointments.filter (fun a => a.status == "cancelled")).length
  { totalAppointments := totalAppointments
    confirmedAppointments := confirmedAppointments
    pendingAppointments := pendingAppointments
    cancelledAppointments := cancelledAppointments
    totalPatients := ((appointments.map (fun a => a.patientId)).dedup).length
    totalDoctors := ((appointments.map (fun a => a.doctorId)).dedup).length
    specialties := appointments.foldl (fun m a => bumpCount m a.specialty) []
    appointmentsByMonth :=
      appointments.foldl (fun m a => bumpCount m (monthKeyOf a.date)) []
    statusPercentages :=
      { confirmed := if totalAppointments > 0 then
          (confirmedAppointments : ℚ) / (totalAppointments : ℚ) * 100 else 0
        pending := if totalAppointments > 0 then
          (pendingAppointments : ℚ) / (totalAppointments : ℚ) * 100 else 0
        cancelled := if totalAppointments > 0 then
          (cancelledAppointments : ℚ) / (totalAppointments : ℚ) * 100 else 0 } }

/-! Association-list lemmas shared by the claim proofs. -/

theorem alGet_alSet_self {α : Type} (l : List (String × α)) (k : String) (v : α) :
    alGet (alSet l k v) k = some v := by
  simp [alSet, alGet]

theorem alGet_filter_ne {α : Type} (l : List (String × α)) (k k' : String)
    (h : k' ≠ k) : alGet (l.filter (fun p => p.1 != k)) k' = alGet l k' := by
  induction l with
  | nil => rfl
  | cons p rest ih =>
      rcases p with ⟨a, b⟩
      simp only [List.filter_cons]
      by_cases hp : a = k
      · subst hp
        simp [alGet, ih, Ne.symm h]
      · simp [alGet, hp, ih]

theorem alGet_alSet_ne {α : Type} (l : List (String × α)) (k : String) (v : α)
    (k' : String) (h : k' ≠ k) : alGet (alSet l k v) k' = alGet l k' := by
  simp [alSet, alGet, Ne.symm h, alGet_filter_ne l k k' h]

theorem alGet_alDel_self {α : Type} (l : List (String × α)) (k : String) :
    alGet (alDel l k) k = none := by
  induction l with
  | nil => rfl
  | cons p rest ih =>
      rcases p with ⟨a, b⟩
      simp only [alDel, List.filter_cons] at ih ⊢
      by_cases hp : a = k
      · subst hp
        simpa using ih
      · simp [alGet, hp, ih]

theorem alGet_alDel_ne {α : Type} (l : List (String × α)) (k k' : String)
    (h : k' ≠ k) : alGet (alDel l k) k' = alGet l k' :=
  alGet_filter_ne l k k' h

/-! Decomposition of getItem: its value depends only on the cache entry and
the backend cell of the requested key; its state effect touches only that
key; backend contents and the write-failure set are never changed by it. -/

theorem getItem_fst (st : StorageState) (key : String) (d : Option Jv)
    (now : Nat) :
    (getItem st key d now).1
      = getItemVal (alGet st.cache key) (alGet st.backend key) d now := by
  rcases hc : alGet st.cache key with _ | c
  · rcases hb : alGet st.backend key with _ | cell
    · simp [getItem, readBackend, getItemVal, backendVal, hc, hb]
    · cases cell <;> simp [getItem, readBackend, getItemVal, backendVal, hc, hb]
  · rcases c with ⟨data, ts, exp⟩
    rcases exp with _ | e
    · simp [getItem, getItemVal, hc]
    · by_cases hcond : e = 0 ∨ now < e
      · simp [getItem, getItemVal, hc, hcond]
      · rcases hb : alGet st.backend key with _ | cell
        · simp [getItem, readBackend, getItemVal, backendVal, hc, hb, hcond]
        · cases cell <;>
            simp [getItem, readBackend, getItemVal, backendVal, hc, hb, hcond]

theorem getItem_backend (st : StorageState) (key : String) (d : Option Jv)
    (now : Nat) : (getItem st key d now).2.backend = st.backend := by
  rcases hc : alGet st.cache key with _ | c
  · rcases hb : alGet st.backend key with _ | cell
    · simp [getItem, readBackend, hc, hb]
    · cases cell <;> simp [getItem, readBackend, hc, hb]
  · rcases c with ⟨data, ts, exp⟩
    rcases exp with _ | e
    · simp [getItem, hc]
    · by_cases hcond : e = 0 ∨ now < e
      · simp [getItem, hc, hcond]
      · rcases hb : alGet st.backend key with _ | cell
        · simp [getItem, readBackend, hc, hb, hcond]
        · cases cell <;> simp [getItem, readBackend, hc, hb, hcond]

theorem getItem_writeFails (st : StorageState) (key : String) (d : Option Jv)
    (now : Nat) : (getItem st key d now).2.writeFails = st.writeFails := by
  rcases hc : alGet st.cache key with _ | c
  · rcases hb : alGet st.backend key with _ | cell
    · simp [getItem, readBackend, hc, hb]
    · cases cell <;> simp [getItem, readBackend, hc, hb]
  · rcases c with ⟨data, ts, exp⟩
    rcases exp with _ | e
    · simp [getItem, hc]
    · by_cases hcond : e = 0 ∨ now < e
      · simp [getItem, hc, hcond]
      · rcases hb : alGet st.backend key with _ | cell
        · simp [getItem, readBackend, hc, hb, hcond]
        · cases cell <;> simp [getItem, readBackend, hc, hb, hcond]

theorem getItem_cache_ne (st : StorageState) (key : String) (d : Option Jv)
    (now : Nat) (k' : String) (h : k' ≠ key) :
    alGet (getItem st key d now).2.cache k' = alGet st.cache k' := by
  rcases hc : alGet st.cache key with _ | c
  · rcases hb : alGet st.backend key with _ | cell
    · simp [getItem, readBackend, hc, hb]
    · cases cell <;>
        simp [getItem, readBackend, hc, hb, alGet_alSet_ne _ _ _ _ h]
  · rcases c with ⟨data, ts, exp⟩
    rcases exp with _ | e
    · simp [getItem, hc]
    · by_cases hcond : e = 0 ∨ now < e
      · simp [getItem, hc, hcond]
      · rcases hb : alGet st.backend key with _ | cell
        · simp [getItem, readBackend, hc, hb, hcond, alGet_alDel_ne _ _ _ h]
        · cases cell <;>
            simp [getItem, readBackend, hc, hb, hcond,
              alGet_alSet_ne _ _ _ _ h, alGet_alDel_ne _ _ _ h]

/-- C1 counterexample: set the key with value v and a 1 minute TTL at time
0; read it back at time 60000 ms, after the TTL has elapsed, supplying the
default d.  The claim says the default is returned; the code returns v,
re-read from the persistent backend, because the TTL evicts only the
in-memory cache entry while setItem also wrote the value durably. -/
theorem ttl_expired_getItem_returns_backend_value_not_default :
    (getItem (setItem ⟨[], [], []⟩ "k" (.str "v") (some 1) 0).2 "k"
        (some (.str "d")) 60000).1 = Jv.str "v" ∧ Jv.str "v" ≠ Jv.str "d" :=
  ⟨rfl, by simp⟩

/-- C1 (amended): after a successful setItem(K, V, T) with T > 0, getItem(K)
returns V at every later time - before T minutes from the in-memory cache,
and after T minutes from the persistent backend (which setItem also wrote);
the TTL expiry evicts only the cache entry and never makes the default
visible while the backend entry remains. -/
theorem setItem_ttl_getItem_always_returns_value
    (st : StorageState) (key : String) (value : Jv) (m t0 t1 : Nat)
    (d : Option Jv) (st1 : StorageState)
    (hset : setItem st key value (some m) t0 = (.ok (), st1)) :
    (getItem st1 key d t1).1 = value := by
  by_cases hw : key ∈ st.writeFails
  · simp [setItem, hw] at hset
  · simp only [setItem, hw, if_neg, if_false, ite_false, Prod.mk.injEq,
      true_and] at hset
    subst hset
    rw [getItem_fst]
    simp only [alGet_alSet_self]
    cases hm : (m != 0)
    · simp [getItemVal, hm]
    · simp only [hm, if_true, ite_true]
      by_cases hcond : t0 + m * 60 * 1000 = 0 ∨ t1 < t0 + m * 60 * 1000
      · simp only [getItemVal]
        rw [if_pos hcond]
      · simp only [getItemVal]
        rw [if_neg hcond]
        rfl

/-- Witness for the amended C1 at a concrete input: state empty, value v,
TTL 1 minute, written at time 0, read back at 60000 ms. -/
theorem setItem_ttl_getItem_always_returns_value_witness :
    (getItem (setItem ⟨[], [], []⟩ "k" (.str "v") (some 1) 0).2 "k" none
        60000).1 = Jv.str "v" :=
  setItem_ttl_getItem_always_returns_value ⟨[], [], []⟩ "k" (.str "v") 1 0
    60000 none _ rfl

/-- C2: setItem(K, V) with no TTL followed by getItem(K) returns exactly V
(the cache entry has no expiry, so the read is a cache hit and the state is
untouched; deep equality is equality of JSON values). -/
theorem setItem_getItem_roundTrip
    (st : StorageState) (key : String) (value : Jv) (t0 t1 : Nat)
    (d : Option Jv) (st1 : StorageState)
    (hset : setItem st key value none t0 = (.ok (), st1)) :
    getItem st1 key d t1 = (value, st1) := by
  by_cases hw : key ∈ st.writeFails
  · simp [setItem, hw] at hset
  · simp only [setItem, hw, if_neg, if_false, ite_false, Prod.mk.injEq,
      true_and] at hset
    subst hset
    simp [getItem, alGet_alSet_self]

/-- Witness for C2 at a concrete input. -/
theorem setItem_getItem_roundTrip_witness :
    getItem (setItem ⟨[], [], []⟩ "k" (.num 7) none 3).2 "k" none 99
      = (Jv.num 7, (setItem ⟨[], [], []⟩ "k" (.num 7) none 3).2) :=
  setItem_getItem_roundTrip ⟨[], [], []⟩ "k" (.num 7) 3 99 none _ rfl

/-- C3 counterexample: the backend holds a malformed string under the key
and the caller supplies the default 0; the claim says 0 is returned, but
the code coalesces the default with defaultValue || null, and 0 is falsy,
so null is returned instead. -/
theorem getItem_error_falsy_default_returns_null :
    (getItem ⟨[("k", .malformed)], [], []⟩ "k" (some (.num 0)) 0).1 = Jv.null
      ∧ Jv.null ≠ Jv.num 0 :=
  ⟨rfl, by simp⟩

/-- C3 (amended): getItem never throws; whenever the backend read or the
deserialization fails - the backend is consulted exactly when the cache has
no entry for the key or only an expired one - getItem returns the supplied
default when that default is truthy and the sentinel null otherwise,
because the source coalesces with defaultValue || null.  setItem, in
contrast, propagates backend write failures to the caller. -/
theorem getItem_failSoft_setItem_propagates
    (st : StorageState) (key : String) (D value : Jv) (e : Option Nat)
    (now : Nat)
    (hc : ∀ c, alGet st.cache key = some c →
      ∃ ex, c.expiry = some ex ∧ ex ≠ 0 ∧ ex ≤ now)
    (herr : alGet st.backend key = some .malformed
      ∨ alGet st.backend key = some .readError) :
    (getItem st key (some D) now).1 = (if D.truthy then D else Jv.null)
      ∧ (key ∈ st.writeFails → (setItem st key value e now).1 = .error ()) := by
  refine ⟨?_, fun hw => by simp [setItem, hw]⟩
  rcases hcc : alGet st.cache key with _ | c
  · rcases herr with h | h <;> simp [getItem, readBackend, hcc, h, jsOr]
  · obtain ⟨ex, hce, he0, hle⟩ := hc c hcc
    have hcond : ¬ (ex = 0 ∨ now < ex) := by
      rintro (h0 | hlt)
      · exact he0 h0
      · omega
    rcases herr with h | h <;>
      simp [getItem, readBackend, hcc, hce, hcond, h, jsOr]

/-- Witness for the amended C3 at a concrete input: an expired cache entry,
a malformed backend cell, the falsy default 0, and a key on which writes
fail. -/
theorem getItem_failSoft_setItem_propagates_witness :
    (getItem ⟨[("k", .malformed)], [("k", ⟨.str "old", 0, some 5⟩)], ["k"]⟩
        "k" (some (.num 0)) 10).1
        = (if (Jv.num 0).truthy then Jv.num 0 else Jv.null)
      ∧ ("k" ∈ (⟨[("k", .malformed)], [("k", ⟨.str "old", 0, some 5⟩)],
            ["k"]⟩ : StorageState).writeFails →
          (setItem ⟨[("k", .malformed)], [("k", ⟨.str "old", 0, some 5⟩)],
            ["k"]⟩ "k" Jv.null none 10).1 = .error ()) :=
  getItem_failSoft_setItem_propagates
    ⟨[("k", .malformed)], [("k", ⟨.str "old", 0, some 5⟩)], ["k"]⟩ "k"
    (Jv.num 0) Jv.null none 10
    (fun c hcx => by
      simp [alGet] at hcx
      exact hcx ▸ ⟨5, rfl, by decide, by decide⟩)
    (Or.inl rfl)

/-- C4 counterexample: remove the key, then read it with the supplied
default 0; the claim says 0 is returned, but 0 is falsy and the source
returns defaultValue || null, hence null. -/
theorem removeItem_getItem_falsy_default_returns_null :
    (getItem
        (removeItem ⟨[("k", .stored (.str "x"))], [("k", ⟨.str "x", 0, none⟩)],
          []⟩ "k") "k" (some (.num 0)) 5).1 = Jv.null
      ∧ Jv.null ≠ Jv.num 0 :=
  ⟨rfl, by simp⟩

/-- C4 (amended): removeItem(K) followed by getItem(K, D) returns D exactly
when D is truthy - in particular the empty list, which is truthy in
JavaScript - and returns the sentinel null for a falsy D such as 0 or
false, because the source coalesces the default with defaultValue || null. -/
theorem removeItem_getItem_returns_default_or_null
    (st : StorageState) (key : String) (D : Jv) (now : Nat) :
    (getItem (removeItem st key) key (some D) now).1
      = (if D.truthy then D else Jv.null) := by
  rw [getItem_fst]
  simp [removeItem, alGet_alDel_self, getItemVal, backendVal, jsOr]

/-- C10: when the backend write fails, setItem propagates the error and the
throw happens before cache.set, so both the cache and the backend are left
unchanged; a subsequent getItem therefore observes exactly the result it
would have observed before the failed call - no stale value is installed. -/
theorem setItem_failure_propagates_and_preserves_state
    (st : StorageState) (key : String) (value : Jv) (e : Option Nat)
    (now now2 : Nat) (d : Option Jv)
    (hfail : key ∈ st.writeFails) :
    (setItem st key value e now).1 = .error ()
      ∧ (setItem st key value e now).2 = st
      ∧ getItem (setItem st key value e now).2 key d now2
        = getItem st key d now2 := by
  simp [setItem, hfail]

/-- Witness for C10 at a concrete input. -/
theorem setItem_failure_propagates_and_preserves_state_witness :
    (setItem ⟨[], [], ["k"]⟩ "k" (.str "v") none 0).1 = .error ()
      ∧ (setItem ⟨[], [], ["k"]⟩ "k" (.str "v") none 0).2 = ⟨[], [], ["k"]⟩
      ∧ getItem (setItem ⟨[], [], ["k"]⟩ "k" (.str "v") none 0).2 "k" none 1
        = getItem ⟨[], [], ["k"]⟩ "k" none 1 :=
  setItem_failure_propagates_and_preserves_state ⟨[], [], ["k"]⟩ "k"
    (.str "v") none 0 1 none (by simp)

/-- A getItem on one key does not change the value a later getItem on a
different key returns. -/
theorem getItem_fst_after_getItem (st : StorageState) (k k' : String)
    (d d' : Option Jv) (now now' : Nat) (h : k' ≠ k) :
    (getItem (getItem st k d now).2 k' d' now').1
      = (getItem st k' d' now').1 := by
  rw [getItem_fst, getItem_cache_ne st k d now k' h, getItem_backend,
    ← getItem_fst]

/-- A successful setItem with no TTL, written out as the resulting state. -/
theorem setItem_ok {st : StorageState} {key : String} (value : Jv) (now : Nat)
    (h : key ∉ st.writeFails) :
    setItem st key value none now
      = (.ok (), ⟨alSet st.backend key (.stored value),
          alSet st.cache key ⟨value, now, none⟩, st.writeFails⟩) := by
  simp [setItem, h]

/-- restoreFromBackup on a backup document of the exact shape createBackup
produces, with truthy section values and no failing writes: all four keys
are overwritten and the call succeeds. -/
theorem restoreFromBackup_ok
    (s : StorageState) (ts : String) (a n r u : Jv) (now : Nat)
    (hwA : STORAGE_KEYS.APPOINTMENTS ∉ s.writeFails)
    (hwN : STORAGE_KEYS.NOTIFICATIONS ∉ s.writeFails)
    (hwR : STORAGE_KEYS.REGISTERED_USERS ∉ s.writeFails)
    (hwS : STORAGE_KEYS.APP_SETTINGS ∉ s.writeFails)
    (ha : a.truthy = true) (hn : n.truthy = true) (hr : r.truthy = true)
    (hu : u.truthy = true) :
    restoreFromBackup s
      (.obj [("timestamp", .str ts),
             ("data", .obj [("appointments", a), ("notifications", n),
                            ("registeredUsers", r), ("settings", u)])]) now
      = (.ok (),
         ⟨alSet (alSet (alSet (alSet s.backend STORAGE_KEYS.APPOINTMENTS
              (.stored a)) STORAGE_KEYS.NOTIFICATIONS (.stored n))
              STORAGE_KEYS.REGISTERED_USERS (.stored r))
              STORAGE_KEYS.APP_SETTINGS (.stored u),
          alSet (alSet (alSet (alSet s.cache STORAGE_KEYS.APPOINTMENTS
              ⟨a, now, none⟩) STORAGE_KEYS.NOTIFICATIONS ⟨n, now, none⟩)
              STORAGE_KEYS.REGISTERED_USERS ⟨r, now, none⟩)
              STORAGE_KEYS.APP_SETTINGS ⟨u, now, none⟩,
          s.writeFails⟩) := by
  have h1 : jsOr (some a) (Jv.arr []) = a := by simp [jsOr, ha]
  have h2 : jsOr (some n) (Jv.arr []) = n := by simp [jsOr, hn]
  have h3 : jsOr (some r) (Jv.arr []) = r := by simp [jsOr, hr]
  have h4 : jsOr (some u) (Jv.obj []) = u := by simp [jsOr, hu]
  simp +decide [restoreFromBackup, jsGet, alGet, h1, h2, h3, h4, Jv.truthy,
    setItem, hwA, hwN, hwR, hwS]

/-- C5: getNotifications(userId) returns exactly the notifications whose
userId equals the argument (a permutation of the userId filter of the
stored collection), sorted in descending order of createdAt, and any two
notifications with identical createdAt keep their original relative order:
for every timestamp t, restricting the result to createdAt = t yields
exactly the original subsequence of such notifications. -/
theorem getNotifications_filters_sorts_stable
    (allNotifications : List Notification) (userId : String) :
    (∀ n ∈ getNotifications allNotifications userId, n.userId = userId)
      ∧ (getNotifications allNotifications userId).Perm
          (allNotifications.filter (fun n => n.userId == userId))
      ∧ (getNotifications allNotifications userId).Pairwise
          (fun a b => b.createdAt ≤ a.createdAt)
      ∧ ∀ t : Nat, (getNotifications allNotifications userId).filter
            (fun n => n.createdAt == t)
          = (allNotifications.filter (fun n => n.userId == userId)).filter
            (fun n => n.createdAt == t) := by
  have htrans : ∀ a b c : Notification, notifLe a b → notifLe b c → notifLe a c := by
    intro a b c hab hbc
    simp only [notifLe, decide_eq_true_eq] at *
    omega
  have htotal : ∀ a b : Notification, notifLe a b || notifLe b a := by
    intro a b
    rcases Nat.le_total b.createdAt a.createdAt with h | h <;>
      simp [notifLe, h]
  refine ⟨?_, ?_, ?_, ?_⟩
  · intro n hn
    rw [getNotifications, List.mem_mergeSort] at hn
    exact beq_iff_eq.mp (List.mem_filter.mp hn).2
  · exact List.mergeSort_perm _ _
  · have hs := List.sorted_mergeSort htrans htotal
      (allNotifications.filter (fun n => n.userId == userId))
    rw [getNotifications]
    exact hs.imp (fun h => by simpa [notifLe] using h)
  · intro t
    have hmem : ∀ n ∈ (allNotifications.filter (fun n => n.userId == userId)).filter
        (fun n => n.createdAt == t), (fun n : Notification => n.createdAt == t) n :=
      fun n hn => (List.mem_filter.mp hn).2
    have hpw : ((allNotifications.filter (fun n => n.userId == userId)).filter
        (fun n => n.createdAt == t)).Pairwise (fun a b => notifLe a b) := by
      apply List.pairwise_of_forall_mem_list
      intro a ha b hb
      have ha2 : a.createdAt = t := beq_iff_eq.mp (hmem a ha)
      have hb2 : b.createdAt = t := beq_iff_eq.mp (hmem b hb)
      simp [notifLe, ha2, hb2]
    have hsub2 := List.sublist_mergeSort htrans htotal hpw
      (List.filter_sublist (allNotifications.filter (fun n => n.userId == userId)))
    have h2 := hsub2.filter (fun n => n.createdAt == t)
    rw [List.filter_eq_self.mpr hmem] at h2
    have hperm := (List.mergeSort_perm
      (allNotifications.filter (fun n => n.userId == userId)) notifLe).filter
      (fun n => n.createdAt == t)
    rw [getNotifications]
    exact (h2.eq_of_length hperm.length_eq.symm).symm

/-- Confirmed percentage of the statistics snapshot, unfolded. -/
theorem statusPercentages_confirmed_eq (l : List Appointment) :
    (getGeneralStatistics l).statusPercentages.confirmed
      = (if l.length > 0 then
          ((l.filter (fun a => a.status == "confirmed")).length : ℚ)
            / (l.length : ℚ) * 100
        else 0) := rfl

/-- C6: on the empty collection every count is 0 and every percentage is 0
(the total > 0 guard avoids the division); on any non-empty collection in
which every appointment is confirmed, the confirmed percentage is exactly
100. -/
theorem getGeneralStatistics_empty_and_allConfirmed :
    ((getGeneralStatistics []).totalAppointments = 0
      ∧ (getGeneralStatistics []).confirmedAppointments = 0
      ∧ (getGeneralStatistics []).pendingAppointments = 0
      ∧ (getGeneralStatistics []).cancelledAppointments = 0
      ∧ (getGeneralStatistics []).statusPercentages.confirmed = 0
      ∧ (getGeneralStatistics []).statusPercentages.pending = 0
      ∧ (getGeneralStatistics []).statusPercentages.cancelled = 0)
    ∧ ∀ l : List Appointment, l ≠ [] → (∀ a ∈ l, a.status = "confirmed") →
        (getGeneralStatistics l).statusPercentages.confirmed = 100 := by
  constructor
  · exact ⟨rfl, rfl, rfl, rfl, rfl, rfl, rfl⟩
  · intro l hne hall
    have hconf : (l.filter (fun a => a.status == "confirmed")) = l :=
      List.filter_eq_self.mpr (fun a ha => beq_iff_eq.mpr (hall a ha))
    have hpos : 0 < l.length := List.length_pos.mpr hne
    rw [statusPercentages_confirmed_eq, hconf, if_pos hpos,
      div_self (by exact_mod_cast hpos.ne')]
    norm_num

/-- Witness for C6 at a concrete input: a single confirmed appointment. -/
theorem getGeneralStatistics_allConfirmed_witness :
    (getGeneralStatistics [⟨"a1", "p1", "P", "d1", "D", "21/08/2025", "14:30",
        "Cardiologia", "confirmed"⟩]).statusPercentages.confirmed = 100 :=
  getGeneralStatistics_empty_and_allConfirmed.2
    [⟨"a1", "p1", "P", "d1", "D", "21/08/2025", "14:30", "Cardiologia",
      "confirmed"⟩] (by simp)
    (fun a ha => by rw [List.mem_singleton] at ha; rw [ha])

/-- C7: the month histogram does not skip a malformed date.  The source
destructures date.split on slash, which never throws for a string date, so
the catch that is supposed to warn and skip is dead code: a date with no
slash is grouped under the template key undefined/undefined and counted.
A well-formed date is grouped under positions 1 and 2 of the split. -/
theorem malformed_date_counted_under_undefined_key :
    (getGeneralStatistics [⟨"a1", "p1", "P", "d1", "D", "2025-08-21", "14:30",
        "Cardio", "pending"⟩]).appointmentsByMonth
        = [("undefined/undefined", 1)]
      ∧ (getGeneralStatistics [⟨"a1", "p1", "P", "d1", "D", "21/08/2025",
          "14:30", "Cardio", "pending"⟩]).appointmentsByMonth
        = [("08/2025", 1)] :=
  ⟨rfl, rfl⟩

/-- C8: updateAppointment with an id that matches no element of the
collection maps every element through unchanged and raises no error. -/
theorem updateAppointment_noMatch_identity
    (appointmentId : String) (updates : List (String × Jv))
    (appointments : List Jv)
    (h : ∀ apt ∈ appointments, aptIdMatches apt appointmentId = false) :
    updateAppointment appointmentId updates appointments = appointments := by
  induction appointments with
  | nil => rfl
  | cons apt rest ih =>
      have hh : aptIdMatches apt appointmentId = false := h apt (by simp)
      have ih2 := ih (fun a ha => h a (by simp [ha]))
      simp only [updateAppointment, List.map_cons] at ih2 ⊢
      rw [hh]
      simp [ih2]

/-- Witness for C8 at a concrete input: one appointment, an unrelated id. -/
theorem updateAppointment_noMatch_identity_witness :
    updateAppointment "zzz" [("status", Jv.str "confirmed")]
        [Jv.obj [("id", Jv.str "a1")]] = [Jv.obj [("id", Jv.str "a1")]] :=
  updateAppointment_noMatch_identity "zzz" [("status", Jv.str "confirmed")]
    [Jv.obj [("id", Jv.str "a1")]]
    (fun apt ha => by rw [List.mem_singleton] at ha; rw [ha]; rfl)

/-- C9 counterexample: the settings key holds the JSON number 0.  The value
read immediately before the backup is 0, but restoring the backup writes
settings || emptyObject, and 0 is falsy, so after the round trip the key
reads as the empty object instead of 0. -/
theorem backup_restore_falsy_settings_not_preserved :
    (getItem ⟨[(STORAGE_KEYS.APP_SETTINGS, .stored (.num 0))], [], []⟩
        STORAGE_KEYS.APP_SETTINGS (some (.obj [])) 0).1 = Jv.num 0
    ∧ (getItem (restoreFromBackup
          (createBackup ⟨[(STORAGE_KEYS.APP_SETTINGS, .stored (.num 0))], [],
            []⟩ 0 "t").2
          (createBackup ⟨[(STORAGE_KEYS.APP_SETTINGS, .stored (.num 0))], [],
            []⟩ 0 "t").1 0).2
        STORAGE_KEYS.APP_SETTINGS (some (.obj [])) 1).1 = Jv.obj []
    ∧ Jv.num 0 ≠ Jv.obj [] :=
  ⟨rfl, rfl, by simp⟩

/-- C9 (amended): restoreFromBackup(createBackup()) leaves the four covered
keys reading deep-equal to the values readable immediately before the
backup, provided the backend writes succeed and each backed-up value is
truthy - which holds for the arrays and objects the app stores.  A falsy
stored value (0, false, null or the empty string) is not preserved: the
restore coalesces each section with data.key || emptyCollection and
replaces it by the empty array or object. -/
theorem backup_restore_preserves_covered_keys
    (st : StorageState) (now now2 : Nat) (ts : String)
    (hwA : STORAGE_KEYS.APPOINTMENTS ∉ st.writeFails)
    (hwN : STORAGE_KEYS.NOTIFICATIONS ∉ st.writeFails)
    (hwR : STORAGE_KEYS.REGISTERED_USERS ∉ st.writeFails)
    (hwS : STORAGE_KEYS.APP_SETTINGS ∉ st.writeFails)
    (htA : ((getItem st STORAGE_KEYS.APPOINTMENTS (some (.arr [])) now).1).truthy = true)
    (htN : ((getItem st STORAGE_KEYS.NOTIFICATIONS (some (.arr [])) now).1).truthy = true)
    (htR : ((getItem st STORAGE_KEYS.REGISTERED_USERS (some (.arr [])) now).1).truthy = true)
    (htS : ((getItem st STORAGE_KEYS.APP_SETTINGS (some (.obj [])) now).1).truthy = true) :
    (restoreFromBackup (createBackup st now ts).2 (createBackup st now ts).1 now).1 = .ok ()
      ∧ ((getItem (restoreFromBackup (createBackup st now ts).2 (createBackup st now ts).1 now).2
            STORAGE_KEYS.APPOINTMENTS (some (.arr [])) now2).1
          = (getItem st STORAGE_KEYS.APPOINTMENTS (some (.arr [])) now).1)
      ∧ ((getItem (restoreFromBackup (createBackup st now ts).2 (createBackup st now ts).1 now).2
            STORAGE_KEYS.NOTIFICATIONS (some (.arr [])) now2).1
          = (getItem st STORAGE_KEYS.NOTIFICATIONS (some (.arr [])) now).1)
      ∧ ((getItem (restoreFromBackup (createBackup st now ts).2 (createBackup st now ts).1 now).2
            STORAGE_KEYS.REGISTERED_USERS (some (.arr [])) now2).1
          = (getItem st STORAGE_KEYS.REGISTERED_USERS (some (.arr [])) now).1)
      ∧ ((getItem (restoreFromBackup (createBackup st now ts).2 (createBackup st now ts).1 now).2
            STORAGE_KEYS.APP_SETTINGS (some (.obj [])) now2).1
          = (getItem st STORAGE_KEYS.APP_SETTINGS (some (.obj [])) now).1) := by
  have dNA : STORAGE_KEYS.NOTIFICATIONS ≠ STORAGE_KEYS.APPOINTMENTS := by decide
  have dRA : STORAGE_KEYS.REGISTERED_USERS ≠ STORAGE_KEYS.APPOINTMENTS := by decide
  have dRN : STORAGE_KEYS.REGISTERED_USERS ≠ STORAGE_KEYS.NOTIFICATIONS := by decide
  have dSA : STORAGE_KEYS.APP_SETTINGS ≠ STORAGE_KEYS.APPOINTMENTS := by decide
  have dSN : STORAGE_KEYS.APP_SETTINGS ≠ STORAGE_KEYS.NOTIFICATIONS := by decide
  have dSR : STORAGE_KEYS.APP_SETTINGS ≠ STORAGE_KEYS.REGISTERED_USERS := by decide
  have dAN : STORAGE_KEYS.APPOINTMENTS ≠ STORAGE_KEYS.NOTIFICATIONS := by decide
  have dAR : STORAGE_KEYS.APPOINTMENTS ≠ STORAGE_KEYS.REGISTERED_USERS := by decide
  have dAS : STORAGE_KEYS.APPOINTMENTS ≠ STORAGE_KEYS.APP_SETTINGS := by decide
  have dNR : STORAGE_KEYS.NOTIFICATIONS ≠ STORAGE_KEYS.REGISTERED_USERS := by decide
  have dNS : STORAGE_KEYS.NOTIFICATIONS ≠ STORAGE_KEYS.APP_SETTINGS := by decide
  have dRS : STORAGE_KEYS.REGISTERED_USERS ≠ STORAGE_KEYS.APP_SETTINGS := by decide
  simp only [createBackup]
  set g1 := getItem st STORAGE_KEYS.APPOINTMENTS (some (Jv.arr [])) now with hg1
  set g2 := getItem g1.2 STORAGE_KEYS.NOTIFICATIONS (some (Jv.arr [])) now with hg2
  set g3 := getItem g2.2 STORAGE_KEYS.REGISTERED_USERS (some (Jv.arr [])) now with hg3
  set g4 := getItem g3.2 STORAGE_KEYS.APP_SETTINGS (some (Jv.obj [])) now with hg4
  have eN : g2.1 = (getItem st STORAGE_KEYS.NOTIFICATIONS (some (Jv.arr [])) now).1 := by
    rw [hg2, hg1]
    exact getItem_fst_after_getItem st _ _ _ _ now now dNA
  have eR : g3.1 = (getItem st STORAGE_KEYS.REGISTERED_USERS (some (Jv.arr [])) now).1 := by
    rw [hg3, hg2, hg1]
    rw [getItem_fst_after_getItem _ _ _ _ _ _ _ dRN,
      getItem_fst_after_getItem _ _ _ _ _ _ _ dRA]
  have eS : g4.1 = (getItem st STORAGE_KEYS.APP_SETTINGS (some (Jv.obj [])) now).1 := by
    rw [hg4, hg3, hg2, hg1]
    rw [getItem_fst_after_getItem _ _ _ _ _ _ _ dSR,
      getItem_fst_after_getItem _ _ _ _ _ _ _ dSN,
      getItem_fst_after_getItem _ _ _ _ _ _ _ dSA]
  have eW : g4.2.writeFails = st.writeFails := by
    rw [hg4, hg3, hg2, hg1]
    rw [getItem_writeFails, getItem_writeFails, getItem_writeFails,
      getItem_writeFails]
  rw [restoreFromBackup_ok g4.2 ts g1.1 g2.1 g3.1 g4.1 now
    (by rw [eW]; exact hwA) (by rw [eW]; exact hwN)
    (by rw [eW]; exact hwR) (by rw [eW]; exact hwS)
    htA (by rw [eN]; exact htN) (by rw [eR]; exact htR) (by rw [eS]; exact htS)]
  refine ⟨rfl, ?_, ?_, ?_, ?_⟩
  · rw [getItem_fst]
    dsimp only
    rw [alGet_alSet_ne _ _ _ _ dAS, alGet_alSet_ne _ _ _ _ dAR,
      alGet_alSet_ne _ _ _ _ dAN, alGet_alSet_self]
    rfl
  · rw [getItem_fst]
    dsimp only
    rw [alGet_alSet_ne _ _ _ _ dNS, alGet_alSet_ne _ _ _ _ dNR,
      alGet_alSet_self]
    simp only [getItemVal]
    exact eN
  · rw [getItem_fst]
    dsimp only
    rw [alGet_alSet_ne _ _ _ _ dRS, alGet_alSet_self]
    simp only [getItemVal]
    exact eR
  · rw [getItem_fst]
    dsimp only
    rw [alGet_alSet_self]
    simp only [getItemVal]
    exact eS

/-- Witness for the amended C9 at a concrete input: the empty storage
state, whose four reads give the truthy defaults. -/
theorem backup_restore_preserves_covered_keys_witness :
    (restoreFromBackup (createBackup ⟨[], [], []⟩ 0 "t").2
        (createBackup ⟨[], [], []⟩ 0 "t").1 0).1 = .ok ()
      ∧ ((getItem (restoreFromBackup (createBackup ⟨[], [], []⟩ 0 "t").2
            (createBackup ⟨[], [], []⟩ 0 "t").1 0).2
            STORAGE_KEYS.APPOINTMENTS (some (.arr [])) 1).1
          = (getItem ⟨[], [], []⟩ STORAGE_KEYS.APPOINTMENTS (some (.arr []))
              0).1)
      ∧ ((getItem (restoreFromBackup (createBackup ⟨[], [], []⟩ 0 "t").2
            (createBackup ⟨[], [], []⟩ 0 "t").1 0).2
            STORAGE_KEYS.NOTIFICATIONS (some (.arr [])) 1).1
          = (getItem ⟨[], [], []⟩ STORAGE_KEYS.NOTIFICATIONS (some (.arr []))
              0).1)
      ∧ ((getItem (restoreFromBackup (createBackup ⟨[], [], []⟩ 0 "t").2
            (createBackup ⟨[], [], []⟩ 0 "t").1 0).2
            STORAGE_KEYS.REGISTERED_USERS (some (.arr [])) 1).1
          = (getItem ⟨[], [], []⟩ STORAGE_KEYS.REGISTERED_USERS
              (some (.arr [])) 0).1)
      ∧ ((getItem (restoreFromBackup (createBackup ⟨[], [], []⟩ 0 "t").2
            (createBackup ⟨[], [], []⟩ 0 "t").1 0).2
            STORAGE_KEYS.APP_SETTINGS (some (.obj [])) 1).1
          = (getItem ⟨[], [], []⟩ STORAGE_KEYS.APP_SETTINGS (some (.obj []))
              0).1) :=
  backup_restore_preserves_covered_keys ⟨[], [], []⟩ 0 1 "t"
    (by simp) (by simp) (by simp) (by simp) rfl rfl rfl rfl

end MedicalApp
